import Mathlib

/-!
# Verification of the cluster lifecycle controller and cluster-access layer

Shallow embedding of the repository's Kubernetes backend:

* `src/src/k8s-engine/minikube.js` — the `Minikube` lifecycle controller
  (state setter with teardown side effects, `start`, `stop`, `del`, `reset`,
  `requiresRestartReasons`, and the `customizeMinikubeMessage` error
  reformatter).
* the `KubeClient` cluster-access client (`ForwardingMap`,
  `createForwardingServer`, `forwardPort`, `cancelForwardPort`, `destroy`,
  `listServices`).

JavaScript semantics are translated explicitly: the event-emitter becomes an
event list in the result of each operation, promise settlement follows
first-settle-wins (a `reject` without `return` lets the executor continue,
exactly as in the source), JS numbers that can be `NaN` become `Option Int`,
and property access on `null` becomes an `Except` error.
-/

namespace K8s

/-- `K8s.State` from `src/src/k8s-engine/k8s.ts`. -/
inductive State
  | stopped
  | starting
  | started
  | stopping
  | error
deriving DecidableEq, Repr

end K8s

namespace Minikube

open K8s

/-- Observable effects of the controller: `state-changed` emissions, client
teardown/creation, and subprocess spawns. -/
inductive Event
  | stateChanged (s : State)
  | clientDestroyed (id : Nat)
  | clientCreated (id : Nat)
  | spawned (cmd : String)
deriving DecidableEq, Repr

/-- The fields of the `Minikube` class that the lifecycle claims depend on:
`#internalState` and `#client` (clients are identified by a numeric id; `none`
is the JS `null`). -/
structure MK where
  state : State
  client : Option Nat
deriving DecidableEq, Repr

/-- The states whose `case` arms in the `set #state` setter destroy the
client: `STOPPING`, `STOPPED`, `ERROR`. -/
def tearsDown : State → Bool
  | .stopping => true
  | .stopped => true
  | .error => true
  | _ => false

/-- The `set #state(value)` accessor: assigns the backing field, emits
`state-changed`, and for `STOPPING`/`STOPPED`/`ERROR` destroys the current
client (if any) and clears the reference. The emission comes first, as in the
source. -/
def setState (m : MK) (v : State) : MK × List Event :=
  (⟨v, if tearsDown v then none else m.client⟩,
   Event.stateChanged v ::
     (match m.client, tearsDown v with
      | some c, true => [Event.clientDestroyed c]
      | _, _ => []))

/-! ## The downgrade-error reformatter (`customizeMinikubeMessage`)

The source applies the regex

```
/X Exiting due to K8S_DOWNGRADE_UNSUPPORTED:\s*(Unable to safely downgrade .*?)
 \s+\*\s*Suggestion:\s+1\)\s*(Recreate the cluster with.*? by running:)
 \s+(minikube delete -p rancher-desktop)
 \s+(minikube start -p rancher-desktop --kubernetes-version=.*?)\n/s
```

(written on one line, `s` flag so `.` matches newlines) via `exec`, which
searches for the leftmost match. We implement that specific pattern directly:
literal pieces, possessive `\s*`/`\s+` (equivalent here because every token
following a whitespace class starts with a non-whitespace character), and
shortest-first expansion for the lazy `.*?` groups with full continuation so
backtracking across groups is preserved. -/

/-- JS `\s` on the ASCII range (space, tab, newline, carriage return,
vertical tab, form feed). -/
def jsWhite (c : Char) : Bool :=
  c = ' ' || c = '\t' || c = '\n' || c = '\r' || c = '\x0b' || c = '\x0c'

/-- Match a literal list of characters at the head of the input, returning
the rest. -/
def litM : List Char → List Char → Option (List Char)
  | [], s => some s
  | _ :: _, [] => none
  | c :: cs, d :: ds => if c = d then litM cs ds else none

/-- `\s*` (possessive, see above). -/
def sStar (s : List Char) : List Char := s.dropWhile jsWhite

/-- `\s+` (possessive, see above). -/
def sPlus (s : List Char) : Option (List Char) :=
  match s with
  | [] => none
  | c :: cs => if jsWhite c then some (sStar cs) else none

/-- Lazy `.*?` (with the `s` flag, so any character may be consumed): try the
continuation after consuming 0, 1, 2, … characters and return the shortest
consumed prefix together with the continuation result. -/
def lazySplit (k : List Char → Option α) : Nat → List Char → List Char → Option (List Char × α)
  | fuel, acc, s =>
    match k s with
    | some a => some (acc.reverse, a)
    | none =>
      match fuel, s with
      | fuel2 + 1, c :: cs => lazySplit k fuel2 (c :: acc) cs
      | _, _ => none

def dgLit0 : List Char := "X Exiting due to K8S_DOWNGRADE_UNSUPPORTED:".data
def dgLit1 : List Char := "Unable to safely downgrade ".data
def dgLit2 : List Char := "Suggestion:".data
def dgLit3 : List Char := "1)".data
def dgLit4 : List Char := "Recreate the cluster with".data
def dgLit5 : List Char := " by running:".data
def dgLit6 : List Char := "minikube delete -p rancher-desktop".data
def dgLit7 : List Char := "minikube start -p rancher-desktop --kubernetes-version=".data

/-- Attempt the downgrade pattern anchored at the head of `s`; on success
return the lazy tails of capture groups 1, 2 and 4 (group 3 is a literal). -/
def downgradeMatchAt (s : List Char) : Option (List Char × List Char × List Char) :=
  (litM dgLit0 s).bind fun s1 =>
  (litM dgLit1 (sStar s1)).bind fun s2 =>
  (lazySplit (fun r =>
      (sPlus r).bind fun r1 =>
      (litM ['*'] r1).bind fun r2 =>
      (litM dgLit2 (sStar r2)).bind fun r3 =>
      (sPlus r3).bind fun r4 =>
      (litM dgLit3 r4).bind fun r5 =>
      (litM dgLit4 (sStar r5)).bind fun r6 =>
      lazySplit (fun t =>
          (litM dgLit5 t).bind fun t1 =>
          (sPlus t1).bind fun t2 =>
          (litM dgLit6 t2).bind fun t3 =>
          (sPlus t3).bind fun t4 =>
          (litM dgLit7 t4).bind fun t5 =>
          lazySplit (fun u => litM ['\n'] u) t5.length [] t5)
        r6.length [] r6)
    s2.length [] s2).map
    (fun p => (p.1, p.2.1, p.2.2.1))

/-- Unanchored leftmost search, as `RegExp.exec` performs. -/
def dgSearch : Nat → List Char → Option (List Char × List Char × List Char)
  | fuel, s =>
    match downgradeMatchAt s with
    | some g => some g
    | none =>
      match fuel, s with
      | f + 1, _ :: cs => dgSearch f cs
      | _, _ => none

/-- `p.exec(errorMessage)`, returning the four capture groups on a match. -/
def downgradeExec (msg : String) : Option (String × String × String × String) :=
  (dgSearch msg.data.length msg.data).map fun g =>
    (String.mk (dgLit1 ++ g.1),
     String.mk (dgLit4 ++ g.2.1 ++ dgLit5),
     String.mk dgLit6,
     String.mk (dgLit7 ++ g.2.2))

/-- `quoteIfNecessary`: wrap a path containing whitespace in double quotes. -/
def quoteIfNecessary (s : String) : String :=
  if s.data.any jsWhite then "\"" ++ s ++ "\"" else s

/-- `customizeMinikubeMessage(errorMessage)`; `home` is the external
`paths.data()` value interpolated into the suggested-fix text. -/
def customizeMinikubeMessage (home : String) (errorMessage : String) : String :=
  match downgradeExec errorMessage with
  | some g =>
    g.1 ++ "\n\nSuggested fix:\n\n" ++ g.2.1 ++ "\n\nexport MINIKUBE_HOME=" ++
      quoteIfNecessary home ++ "\n\n" ++ g.2.2.1 ++ "\n\n" ++ g.2.2.2 ++
      " --driver=hyperkit\n"
  | none => errorMessage

/-! ## Lifecycle operations

Each operation is modelled as a function from the controller fields (plus the
environment: the subprocess outcome, a fresh client id, the external
`paths.data()` string) to the new fields, the emitted event list, and the
JS promise outcome (`Except`). Operations are atomic: the `#currentType`
busy-wait lock admits one operation at a time, so no other operation
interleaves with the suspension points inside one. -/

/-- Failure values rejected by the lifecycle operations. -/
inductive OpFailure
  | startPrecondition (s : State)
  | startFailure (errorCode : Option Int) (message : String)
  | stopFailure (errorCode : Int) (message : String)
  | delPrecondition
  | delFailure (errorCode : Int) (message : String)
  | resetFailure (message : String)
deriving DecidableEq, Repr

/-- Outcome of one spawned `minikube start` subprocess. `exit` carries the
exit code (`none` for a signal kill), the signal, and the accumulated stderr.
The classification `code 80 ∧ perms-message ∧ non-nested` that triggers the
privilege-escalation retry is represented by `escalate`, which carries the
outcome of the nested retry; on a nested call (where the source guard
`!nested` is false) `escalate` falls through to the failure branch with exit
code 80, as the source does. -/
inductive StartOutcome
  | exit (code : Option Int) (sig : Option String) (stderr : String)
  | escalate (stderr : String) (inner : StartOutcome)
deriving DecidableEq, Repr

/-- The guard `!nested && this.#state !== K8s.State.STOPPED`. Note that the
source calls `reject` under this guard and then *keeps executing*: the state
is still set to `STARTING` and the subprocess is still spawned. -/
def startPrecondFail (nested : Bool) (s : State) : Bool :=
  !nested && !(s == State.stopped)

/-- `start(nested)`: the promise executor (precondition check without early
return, transition to `STARTING`, spawn), the `exit` handler (escalation /
success / SIGINT / failure with `customizeMinikubeMessage`), and the
post-await section (skip if `STOPPED`, otherwise set `STARTED` again and
construct the client). `fresh` is the id of a client constructed by this
call; a nested retry uses `fresh + 1`. -/
def startRun (home : String) (m : MK) (nested : Bool) (out : StartOutcome) (fresh : Nat) :
    MK × List Event × Except OpFailure Unit :=
  let pre := startPrecondFail nested m.state
  let p1 := setState m State.starting
  let evs0 := p1.2 ++ [Event.spawned "minikube start"]
  match out with
  | .exit code sig stderr =>
    if code = some 0 then
      -- exit handler: `this.#state = K8s.State.STARTED; resolve();`
      let p2 := setState p1.1 State.started
      if pre then
        -- the promise was already rejected by the precondition check
        (p2.1, evs0 ++ p2.2, Except.error (OpFailure.startPrecondition m.state))
      else
        -- post-await: state is STARTED (not STOPPED), so set STARTED again
        -- and construct the Kubernetes client
        let p3 := setState p2.1 State.started
        (⟨p3.1.state, some fresh⟩,
         evs0 ++ p2.2 ++ p3.2 ++ [Event.clientCreated fresh], Except.ok ())
    else if sig = some "SIGINT" then
      -- user interrupted the start: clean transition to STOPPED
      let p2 := setState p1.1 State.stopped
      if pre then
        (p2.1, evs0 ++ p2.2, Except.error (OpFailure.startPrecondition m.state))
      else
        -- post-await: state is STOPPED, return early
        (p2.1, evs0 ++ p2.2, Except.ok ())
    else
      let p2 := setState p1.1 State.error
      (p2.1, evs0 ++ p2.2,
       Except.error
         (if pre then OpFailure.startPrecondition m.state
          else OpFailure.startFailure code (customizeMinikubeMessage home stderr)))
  | .escalate stderr inner =>
    if nested then
      -- a nested call never escalates again; exit code 80 lands in the
      -- failure branch
      let p2 := setState p1.1 State.error
      (p2.1, evs0 ++ p2.2,
       Except.error
         (OpFailure.startFailure (some 80) (customizeMinikubeMessage home stderr)))
    else
      -- `await startAgain(this).catch(reject); resolve();`
      let r2 := startRun home p1.1 true inner (fresh + 1)
      match r2.2.2 with
      | Except.error e =>
        (r2.1, evs0 ++ r2.2.1,
         Except.error (if pre then OpFailure.startPrecondition m.state else e))
      | Except.ok _ =>
        if pre then
          (r2.1, evs0 ++ r2.2.1, Except.error (OpFailure.startPrecondition m.state))
        else if r2.1.state = State.stopped then
          (r2.1, evs0 ++ r2.2.1, Except.ok ())
        else
          let p3 := setState r2.1 State.started
          (⟨p3.1.state, some fresh⟩,
           evs0 ++ r2.2.1 ++ p3.2 ++ [Event.clientCreated fresh], Except.ok ())

/-- `stop()`: no-op when already `STOPPED`; otherwise `STOPPING`, spawn
`minikube stop`, then `STOPPED` on exit code 0/undefined/null and `ERROR`
otherwise. `code = none` models a missing exit code. -/
def stopRun (m : MK) (code : Option Int) (stderr : String) :
    MK × List Event × Except OpFailure Unit :=
  if m.state = State.stopped then (m, [], Except.ok ())
  else
    let p1 := setState m State.stopping
    let evs := p1.2 ++ [Event.spawned "minikube stop"]
    match code with
    | none =>
      let p2 := setState p1.1 State.stopped
      (p2.1, evs ++ p2.2, Except.ok ())
    | some c =>
      if c = 0 then
        let p2 := setState p1.1 State.stopped
        (p2.1, evs ++ p2.2, Except.ok ())
      else
        let p2 := setState p1.1 State.error
        (p2.1, evs ++ p2.2, Except.error (OpFailure.stopFailure c stderr))

/-- `del()`: rejects with `1` when the state is not `STOPPED`, but — exactly
as in the source, where the `reject(1)` is not followed by a `return` — the
executor continues and spawns `minikube delete` regardless. The state and
client fields are never touched. -/
def delRun (m : MK) (code : Int) (stderr : String) :
    MK × List Event × Except OpFailure Int :=
  (m, [Event.spawned "minikube delete"],
   if m.state ≠ State.stopped then Except.error OpFailure.delPrecondition
   else if code = 0 then Except.ok code
   else Except.error (OpFailure.delFailure code stderr))

/-- `reset()`: no-op unless `STARTED`; then `STARTING`, `#client?.destroy()`
(without clearing the reference), the four remote `ssh -- sudo` commands
(`failure` is the stderr of the first failing one, `none` when all succeed),
the restore to `STARTED` guarded by the state still being `STARTING`, and a
fresh client. On failure the state becomes `ERROR` (which clears the
client). -/
def resetRun (m : MK) (failure : Option String) (fresh : Nat) :
    MK × List Event × Except OpFailure Unit :=
  if m.state ≠ State.started then (m, [], Except.ok ())
  else
    let p1 := setState m State.starting
    let evd : List Event :=
      match p1.1.client with
      | some c => [Event.clientDestroyed c]
      | none => []
    match failure with
    | none =>
      let p2 :=
        if p1.1.state = State.starting then setState p1.1 State.started else (p1.1, [])
      (⟨p2.1.state, some fresh⟩,
       p1.2 ++ evd ++ [Event.spawned "minikube ssh"] ++ p2.2 ++ [Event.clientCreated fresh],
       Except.ok ())
    | some stderr =>
      let p2 := setState p1.1 State.error
      (p2.1, p1.2 ++ evd ++ [Event.spawned "minikube ssh"] ++ p2.2,
       Except.error (OpFailure.resetFailure stderr))

/-- `factoryReset()`: stop unless already stopped, then delete (the final
recursive removal of the data directory does not touch the modelled fields). -/
def factoryResetRun (m : MK) (stopCode : Option Int) (delCode : Int) :
    MK × Except OpFailure Unit :=
  let r1 := if m.state ≠ State.stopped then stopRun m stopCode "" else (m, [], Except.ok ())
  match r1.2.2 with
  | Except.error e => (r1.1, Except.error e)
  | Except.ok _ =>
    let r2 := delRun r1.1 delCode ""
    match r2.2.2 with
    | Except.error e => (r2.1, Except.error e)
    | Except.ok _ => (r2.1, Except.ok ())

/-- The controller states reachable from the initial fields
(`#internalState = STOPPED`, `#client = null`) under any sequence of
lifecycle operations with any subprocess outcomes. -/
inductive Reachable : MK → Prop
  | init : Reachable ⟨State.stopped, none⟩
  | start (home : String) (nested : Bool) (out : StartOutcome) (fresh : Nat) {m : MK} :
      Reachable m → Reachable (startRun home m nested out fresh).1
  | stop (code : Option Int) (stderr : String) {m : MK} :
      Reachable m → Reachable (stopRun m code stderr).1
  | del (code : Int) (stderr : String) {m : MK} :
      Reachable m → Reachable (delRun m code stderr).1
  | reset (failure : Option String) (fresh : Nat) {m : MK} :
      Reachable m → Reachable (resetRun m failure fresh).1

/-! ## `requiresRestartReasons` -/

/-- A JS value stored in a restart-reason tuple (numbers are rationals, since
JS division is exact on the values involved; strings are strings). -/
inductive JsValue
  | num (q : ℚ)
  | str (s : String)
deriving DecidableEq, Repr

/-- The relevant fields of the on-disk `config.json`
(`MinikubeConfiguration` in the source's JSDoc). -/
structure MinikubeConfiguration where
  CPUs : ℚ
  Memory : ℚ
  Bootstrapper : String
deriving DecidableEq, Repr

/-- The desired settings the controller holds (`this.cfg`). -/
structure BackendSettings where
  numberCPUs : ℚ
  memoryInGB : ℚ
  version : String
deriving DecidableEq, Repr

/-- `requiresRestartReasons()`: `config` is the parsed on-disk running
configuration (`none` when the file is absent or the cluster is not
started). The `cmp` closure assigns, for each key, `[]` when the values
match and `[actual, desired]` otherwise; the result object is the assignment
sequence `cpu`, `memory`, `bootstrapper`. -/
def requiresRestartReasons (config : Option MinikubeConfiguration)
    (cfg : BackendSettings) : List (String × List JsValue) :=
  match config with
  | none => []
  | some c =>
    let cmp := fun (actual desired : JsValue) =>
      if actual = desired then ([] : List JsValue) else [actual, desired]
    [("cpu", cmp (JsValue.num c.CPUs) (JsValue.num cfg.numberCPUs)),
     ("memory", cmp (JsValue.num (c.Memory / 1024)) (JsValue.num cfg.memoryInGB)),
     ("bootstrapper", cmp (JsValue.str c.Bootstrapper) (JsValue.str "k3s"))]

end Minikube

namespace KubeClient

/-! ## The cluster-access client (`KubeClient`, `src/unnamed/part_000`)

`ForwardingMap` wraps a JS `Map<string, net.Server>` keyed by the composite
string `` `${namespace || 'default'}/${endpoint}:${port}` ``. We model the
map as an insertion-ordered association list with unique keys (JS `Map`
semantics), a `net.Server` as an id plus its bound address (`none` until the
listener is bound — `server.address()` returns `null` then), and JS numbers
that can be `NaN` (the result of `parseInt` on a non-numeric string) as
`Option Int`. -/

/-- A `net.Server`: `addr = none` means the listener is not (or no longer)
bound and `address()` returns `null`; `addr = some p` means it is listening
on local port `p`. -/
structure Server where
  id : Nat
  addr : Option Nat
deriving DecidableEq, Repr

/-- A JS number that may be `NaN`. -/
abbrev JsNum := Option Int

/-- JS number-to-string coercion as used in template literals. -/
def jsNumToString : JsNum → String
  | none => "NaN"
  | some i => toString i

/-- The digits-prefix part of JS `parseInt`. -/
def digitsPrefix (l : List Char) : Option Nat :=
  let ds := l.takeWhile Char.isDigit
  if ds = [] then none
  else some (ds.foldl (fun a c => a * 10 + (c.toNat - 48)) 0)

/-- JS `parseInt(s)` (radix 10): skip leading whitespace, optional sign,
then the longest digit prefix; `none` (NaN) if there are no digits. -/
def jsParseInt (s : String) : JsNum :=
  match s.data.dropWhile Minikube.jsWhite with
  | '-' :: rest => (digitsPrefix rest).map fun n => -(n : Int)
  | '+' :: rest => (digitsPrefix rest).map fun n => (n : Int)
  | l => (digitsPrefix l).map fun n => (n : Int)

/-- The underlying `Map<string, net.Server>` of `ForwardingMap`. -/
abbrev Table := List (String × Server)

/-- `` `${namespace || 'default'}/${endpoint}:${port}` `` — the composite key
used by every `ForwardingMap` method. `namespace` is `string|undefined`
(`none` = `undefined`; the empty string is also falsy). -/
def fmKey (ns : Option String) (endpoint : String) (port : JsNum) : String :=
  (match ns with
   | none => "default"
   | some s => if s = "" then "default" else s) ++
    "/" ++ endpoint ++ ":" ++ jsNumToString port

/-- `Map.get` (JS maps have unique keys; lookup finds the entry if present). -/
def mapGet (m : Table) (k : String) : Option Server :=
  (List.lookup k m : Option Server)

/-- `Map.set`: update in place when the key exists (preserving insertion
order), otherwise append. -/
def mapSet (m : Table) (k : String) (v : Server) : Table :=
  if (mapGet m k).isSome then
    List.map (fun e => if e.1 = k then (k, v) else e) m
  else m ++ [(k, v)]

/-- `Map.delete`. -/
def mapDelete (m : Table) (k : String) : Table :=
  List.filter (fun e => !(e.1 == k)) m

/-- `ForwardingMap.get`. -/
def fmGet (m : Table) (ns : Option String) (endpoint : String) (port : JsNum) : Option Server :=
  mapGet m (fmKey ns endpoint port)

/-- `ForwardingMap.set`. -/
def fmSet (m : Table) (ns : Option String) (endpoint : String) (port : JsNum)
    (server : Server) : Table :=
  mapSet m (fmKey ns endpoint port) server

/-- `ForwardingMap.delete`. -/
def fmDelete (m : Table) (ns : Option String) (endpoint : String) (port : JsNum) : Table :=
  mapDelete m (fmKey ns endpoint port)

/-- `ForwardingMap.has`. -/
def fmHas (m : Table) (ns : Option String) (endpoint : String) (port : JsNum) : Bool :=
  (fmGet m ns endpoint port).isSome

/-- Split a list at the first occurrence of `c`, if any. -/
def splitFirst (c : Char) : List Char → Option (List Char × List Char)
  | [] => none
  | d :: ds =>
    if d = c then some ([], ds)
    else (splitFirst c ds).map fun p => (d :: p.1, p.2)

/-- The iterator's regex `/^([^/]*)\/([^:]+):(\d+)$/` applied to a key.
`[^/]*` is greedy but cannot contain `/`, so group 1 is exactly the segment
before the first `/` (the match fails when there is none); likewise group 2
is the nonempty segment before the first `:` of the remainder, and group 3
is the nonempty all-digits tail. -/
def keyParse (k : String) : Option (String × String × String) :=
  match splitFirst '/' k.data with
  | none => none
  | some (a, rest) =>
    match splitFirst ':' rest with
    | none => none
    | some (b, d) =>
      if b ≠ [] ∧ d ≠ [] ∧ d.all Char.isDigit then
        some (String.mk a, String.mk b, String.mk d)
      else none

/-- `ForwardingMap[Symbol.iterator]`: for each entry whose key matches the
regex, the source destructures `const [namespace, endpoint, port] = match`,
i.e. `match[0]` (the whole key) becomes `namespace`, `match[1]` (the
namespace group) becomes `endpoint`, and `match[2]` (the endpoint group)
becomes the string passed to `parseInt`. It yields
`[namespace, endpoint, parseInt(port), server]`. -/
def iterEntries (m : Table) : List (String × String × JsNum × Server) :=
  m.filterMap fun e =>
    (keyParse e.1).map fun g => (e.1, g.1, jsParseInt g.2.1, e.2)

/-- The `KubeClient` fields the forwarding claims depend on. -/
structure KC where
  servers : Table
  shutdown : Bool
deriving DecidableEq, Repr

/-- Error values raised inside the client: a rejected listener setup
(`error` event), a premature `close`, or a JS `TypeError` from a property
access on `null`. -/
inductive KCErr
  | listenError
  | serverClosed
  | typeError
deriving DecidableEq, Repr

/-- Observable effects of the client. -/
inductive CEvent
  | listenerCreated (id : Nat)
  | listenerClosed (id : Nat)
  | serviceChanged
deriving DecidableEq, Repr

/-- `destroy()`: mark shutdown, then iterate the forwarding map, calling
`servers.delete(namespace, endpoint, port)` with the permuted components the
iterator yields and closing each yielded server. (The deletions target keys
that are never present — see the claims below — so iterating over a snapshot
of the map coincides with the JS live-map iteration.) -/
def destroy (kc : KC) : KC × List Nat :=
  (iterEntries kc.servers).foldl
    (fun acc q =>
      (⟨fmDelete acc.1.servers (some q.1) q.2.1 q.2.2.1, acc.1.shutdown⟩,
       acc.2 ++ [q.2.2.2.id]))
    (⟨kc.servers, true⟩, [])

/-- Outcome of the `server.listen` suspension inside
`createForwardingServer`: the `listening` event (with the ephemeral local
port the listener got bound to), the `error` event, or a premature `close`. -/
inductive BindOutcome
  | listening (port : Nat)
  | errored
  | closedEarly
deriving DecidableEq, Repr

/-- The registration step of `createForwardingServer`: the fresh (not yet
bound) listener is entered into the forwarding map *before* the bind
completes. -/
def cfsRegister (kc : KC) (ns endpoint : String) (port : Int) (fresh : Nat) : KC :=
  ⟨fmSet kc.servers (some ns) endpoint (some port) ⟨fresh, none⟩, kc.shutdown⟩

/-- `createForwardingServer(namespace, endpoint, port)`: no-op when an entry
already exists for the triple; otherwise create a listener, register it,
suspend until `listening`/`error`/`close`; an error or premature close
rejects the call (and, as in the source, leaves the registration in place);
on `listening` the server object — also referenced from the map — becomes
bound, the cancellation race is checked by identity, and `service-changed`
is emitted. -/
def createForwardingServer (kc : KC) (ns endpoint : String) (port : Int)
    (fresh : Nat) (bind : BindOutcome) : KC × List CEvent × Except KCErr Unit :=
  if (fmGet kc.servers (some ns) endpoint (some port)).isSome then
    (kc, [], Except.ok ())
  else
    let kc1 := cfsRegister kc ns endpoint port fresh
    match bind with
    | .listening p =>
      let kc2 : KC :=
        ⟨fmSet kc1.servers (some ns) endpoint (some port) ⟨fresh, some p⟩, kc1.shutdown⟩
      match fmGet kc2.servers (some ns) endpoint (some port) with
      | some s =>
        if s.id = fresh then
          (kc2, [CEvent.listenerCreated fresh, CEvent.serviceChanged], Except.ok ())
        else
          (kc2, [CEvent.listenerCreated fresh, CEvent.listenerClosed fresh,
                 CEvent.serviceChanged], Except.ok ())
      | none =>
        (kc2, [CEvent.listenerCreated fresh, CEvent.listenerClosed fresh,
               CEvent.serviceChanged], Except.ok ())
    | .errored =>
      (kc1, [CEvent.listenerCreated fresh], Except.error KCErr.listenError)
    | .closedEarly =>
      (kc1, [CEvent.listenerCreated fresh], Except.error KCErr.serverClosed)

/-- `forwardPort(namespace, endpoint, port)`: ensure the forwarding server
exists, then read its bound address; `undefined` when the entry vanished
meanwhile. `server.address()` is asserted to `net.AddressInfo`, so an
unbound server (address `null`) would throw on `.port`. -/
def forwardPort (kc : KC) (ns endpoint : String) (port : Int)
    (fresh : Nat) (bind : BindOutcome) : KC × List CEvent × Except KCErr (Option Nat) :=
  match createForwardingServer kc ns endpoint port fresh bind with
  | (kc1, ev, Except.error e) => (kc1, ev, Except.error e)
  | (kc1, ev, Except.ok _) =>
    match fmGet kc1.servers (some ns) endpoint (some port) with
    | none => (kc1, ev, Except.ok none)
    | some s =>
      match s.addr with
      | none => (kc1, ev, Except.error KCErr.typeError)
      | some p => (kc1, ev, Except.ok (some p))

/-- `cancelForwardPort(namespace, endpoint, port)`: delete the entry and, if
a listener existed, close it and emit `service-changed`. -/
def cancelForwardPort (kc : KC) (ns endpoint : String) (port : Int) :
    KC × List CEvent :=
  let server := fmGet kc.servers (some ns) endpoint (some port)
  let kc1 : KC := ⟨fmDelete kc.servers (some ns) endpoint (some port), kc.shutdown⟩
  match server with
  | some s => (kc1, [CEvent.listenerClosed s.id, CEvent.serviceChanged])
  | none => (kc1, [])

/-! ### `listServices` -/

/-- One port of a watched Kubernetes service (`V1ServicePort`): the port
name and `targetPort`. -/
structure PortSpec where
  portName : Option String
  targetPort : Int
deriving DecidableEq, Repr

/-- A watched Kubernetes service: `metadata?.namespace`, `metadata?.name`,
and `spec?.ports || []` already flattened to a list. -/
structure Service where
  namespaceOf : Option String
  nameOf : Option String
  ports : List PortSpec
deriving DecidableEq, Repr

/-- The `ServiceEntry` record produced by `listServices`. -/
structure ServiceEntry where
  namespaceOf : Option String
  nameOf : String
  portName : Option String
  port : Int
  listenPort : Option Nat
deriving DecidableEq, Repr

/-- JS `metadata?.name || ''`. -/
def jsNameOf : Option String → String
  | some s => s
  | none => ""

/-- What `server?.address()` evaluates to in JS: `undefined` when there is
no server, `null` when the server is unbound, an address record otherwise. -/
inductive JsAddr
  | undef
  | null
  | info (port : Nat)
deriving DecidableEq, Repr

/-- List traversal in the `Except` monad: the first thrown error aborts the
whole computation, as a `throw` inside a JS `map` callback does. -/
def exMapM (f : α → Except KCErr β) : List α → Except KCErr (List β)
  | [] => Except.ok []
  | x :: xs =>
    match f x with
    | Except.error e => Except.error e
    | Except.ok b =>
      match exMapM f xs with
      | Except.error e => Except.error e
      | Except.ok bs => Except.ok (b :: bs)

/-- The per-port body of `listServices`: look up the forwarding entry for
`(metadata?.namespace, metadata?.name || '', port.targetPort)`; the source
computes `address !== undefined ? (address as net.AddressInfo).port :
undefined`, so a `null` address (an unbound listener) passes the guard and
the `.port` access throws a `TypeError`. -/
def serviceEntryFor (servers : Table) (svc : Service) (ps : PortSpec) :
    Except KCErr ServiceEntry :=
  let name := jsNameOf svc.nameOf
  let address : JsAddr :=
    match fmGet servers svc.namespaceOf name (some ps.targetPort) with
    | none => JsAddr.undef
    | some s =>
      match s.addr with
      | none => JsAddr.null
      | some p => JsAddr.info p
  match address with
  | JsAddr.undef =>
    Except.ok ⟨svc.namespaceOf, name, ps.portName, ps.targetPort, none⟩
  | JsAddr.null => Except.error KCErr.typeError
  | JsAddr.info p =>
    Except.ok ⟨svc.namespaceOf, name, ps.portName, ps.targetPort, some p⟩

/-- `listServices(namespace?)`: flat-map the watch cache (`svcs` is
`this.services.list(namespace)`) over each service's ports. -/
def listServices (svcs : List Service) (servers : Table) :
    Except KCErr (List ServiceEntry) :=
  (exMapM (fun svc => exMapM (serviceEntryFor servers svc) svc.ports) svcs).map
    List.flatten

/-! ### Canonical forwarding tables

For reasoning about the iterator and `destroy`, a forwarding table is
described by its key components: the keys produced by `ForwardingMap.set`
for Kubernetes-legal names are `namespace/endpoint:digits` where the
namespace and endpoint are nonempty and contain neither `/` nor `:`. -/

/-- A composite key assembled from explicit components (`ps` is the decimal
rendering of the port). -/
def canonKey (ns ep ps : String) : String :=
  ns ++ "/" ++ ep ++ ":" ++ ps

/-- Wellformedness of one `(namespace, endpoint, portDigits, server)`
component tuple. -/
def WfComp (x : String × String × String × Server) : Prop :=
  x.1 ≠ "" ∧ (∀ c ∈ x.1.data, c ≠ '/' ∧ c ≠ ':') ∧
  x.2.1 ≠ "" ∧ (∀ c ∈ x.2.1.data, c ≠ '/' ∧ c ≠ ':') ∧
  x.2.2.1 ≠ "" ∧ (∀ c ∈ x.2.2.1.data, c.isDigit)

instance (x : String × String × String × Server) : Decidable (WfComp x) := by
  unfold WfComp
  infer_instance

/-- The forwarding table holding exactly the entries described by `L`. -/
def tableOfComps (L : List (String × String × String × Server)) : Table :=
  L.map fun x => (canonKey x.1 x.2.1 x.2.2.1, x.2.2.2)

end KubeClient


/-! # Theorems -/

namespace Minikube

open K8s

theorem setState_teardown (m : MK) (v : State) (h : tearsDown v = true) :
    (setState m v).1.client = none := by
  simp [setState, h]

theorem setState_teardown_event (m : MK) (v : State) (c : Nat)
    (h : tearsDown v = true) (hc : m.client = some c) :
    Event.clientDestroyed c ∈ (setState m v).2 := by
  simp [setState, h, hc]

/-- Any result of `startRun` satisfies the one-directional client invariant,
regardless of the input fields: every exit path either ends `STARTED` or
ends in a state whose transition cleared the client. -/
theorem startRun_client_inv (home : String) (nested : Bool) (out : StartOutcome)
    (fresh : Nat) (m : MK) :
    (startRun home m nested out fresh).1.client.isSome →
    (startRun home m nested out fresh).1.state = State.started := by
  induction out generalizing m nested fresh with
  | exit code sig stderr =>
    by_cases h0 : code = some 0 <;> by_cases hsig : sig = some "SIGINT" <;>
      by_cases hpre : startPrecondFail nested m.state = true <;>
        simp [startRun, setState, tearsDown, h0, hsig, hpre]
  | escalate stderr inner ih =>
    by_cases hn : nested
    · simp [startRun, setState, tearsDown, hn]
    · by_cases hpre : startPrecondFail nested m.state = true <;>
        · simp only [startRun, setState, tearsDown, hn, hpre]
          rcases hr : startRun home ⟨State.starting, m.client⟩ true inner (fresh + 1) with
            ⟨m2, ev2, r2⟩
          have ih2 := ih true (fresh + 1) ⟨State.starting, m.client⟩
          rw [hr] at ih2
          rcases r2 with e | u <;>
            simp_all [setState, tearsDown] <;>
            split <;> simp_all

theorem stopRun_client_inv (code : Option Int) (stderr : String) (m : MK)
    (h : m.client.isSome → m.state = State.started) :
    (stopRun m code stderr).1.client.isSome →
    (stopRun m code stderr).1.state = State.started := by
  by_cases hs : m.state = State.stopped
  · intro hc
    simp [stopRun, hs] at hc ⊢
    rw [h hc] at hs
    exact absurd hs (by simp)
  · rcases code with _ | c
    · simp [stopRun, hs, setState, tearsDown]
    · by_cases hc0 : c = 0 <;> simp [stopRun, hs, hc0, setState, tearsDown]

theorem resetRun_client_inv (failure : Option String) (fresh : Nat) (m : MK)
    (h : m.client.isSome → m.state = State.started) :
    (resetRun m failure fresh).1.client.isSome →
    (resetRun m failure fresh).1.state = State.started := by
  by_cases hs : m.state = State.started
  · rcases failure with _ | stderr <;>
      simp [resetRun, hs, setState, tearsDown]
  · intro hc
    simp [resetRun, hs] at hc ⊢
    exact absurd (h hc) hs

/-- The client invariant holds at every reachable controller state. -/
theorem reachable_client_inv {m : MK} (h : Reachable m) :
    m.client.isSome → m.state = State.started := by
  induction h with
  | init => simp
  | start home nested out fresh hr ih => exact startRun_client_inv home nested out fresh _
  | stop code stderr hr ih => exact stopRun_client_inv code stderr _ ih
  | del code stderr hr ih => simpa [delRun] using ih
  | reset failure fresh hr ih => exact resetRun_client_inv failure fresh _ ih

/-- Claim C1, amended. At every reachable state of the controller:
a Cluster Access Client reference implies the state is `Started`; every
transition into `Stopping`, `Stopped`, or `Error` through the state setter
destroys the current client and clears the reference; and when `reset()`
completes with the state no longer `Starting` or `Started`, no client
reference remains. (The converse direction of the original claim — state
`Started` implies a client exists — fails on the code; see the
counterexample.) -/
theorem c1_client_lifecycle (m : MK) (v : State) (failure : Option String)
    (fresh : Nat) (hm : Reachable m)
    (hv : v = State.stopping ∨ v = State.stopped ∨ v = State.error) :
    (m.client.isSome → m.state = State.started) ∧
    ((setState m v).1.client = none ∧
      ∀ c, m.client = some c → Event.clientDestroyed c ∈ (setState m v).2) ∧
    ((resetRun m failure fresh).1.state ≠ State.starting →
      (resetRun m failure fresh).1.state ≠ State.started →
      (resetRun m failure fresh).1.client = none) := by
  have htear : tearsDown v = true := by
    rcases hv with h | h | h <;> simp [h, tearsDown]
  refine ⟨reachable_client_inv hm, ⟨setState_teardown m v htear,
    fun c hc => setState_teardown_event m v c htear hc⟩, ?_⟩
  intro h1 h2
  by_cases hs : m.state = State.started
  · rcases failure with _ | stderr
    · exfalso
      apply h2
      simp [resetRun, hs, setState, tearsDown]
    · simp [resetRun, hs, setState, tearsDown]
  · simp only [resetRun, hs, if_pos (by simpa using hs)] at h1 h2 ⊢
    cases hc : m.client with
    | none => rfl
    | some c => exact absurd (reachable_client_inv hm (by simp [hc])) hs

/-- Witness for `c1_client_lifecycle` at the initial state and `v = ERROR`. -/
theorem c1_client_lifecycle_witness :
    Reachable (⟨State.stopped, none⟩ : MK) ∧
    (((⟨State.stopped, none⟩ : MK).client.isSome →
        (⟨State.stopped, none⟩ : MK).state = State.started) ∧
      ((setState ⟨State.stopped, none⟩ State.error).1.client = none ∧
        ∀ c, (⟨State.stopped, none⟩ : MK).client = some c →
          Event.clientDestroyed c ∈ (setState ⟨State.stopped, none⟩ State.error).2) ∧
      ((resetRun ⟨State.stopped, none⟩ none 0).1.state ≠ State.starting →
        (resetRun ⟨State.stopped, none⟩ none 0).1.state ≠ State.started →
        (resetRun ⟨State.stopped, none⟩ none 0).1.client = none)) :=
  ⟨Reachable.init,
   c1_client_lifecycle ⟨State.stopped, none⟩ State.error none 0 Reachable.init
     (Or.inr (Or.inr rfl))⟩

/-- Claim C1, counterexample to the original two-sided invariant: after a
failed `start()` (state `Error`) a second non-nested `start()` is rejected by
the precondition check, but — the `reject` not being followed by a `return` —
the subprocess is spawned anyway; when it exits 0 the handler sets the state
to `Started` while the post-await client construction never runs. The
resulting reachable state is `Started` with no client. -/
theorem c1_started_without_client_counterexample :
    Reachable (startRun "/h" (startRun "/h" ⟨State.stopped, none⟩ false
        (StartOutcome.exit (some 1) none "x") 0).1 false
        (StartOutcome.exit (some 0) none "") 1).1 ∧
    (startRun "/h" (startRun "/h" ⟨State.stopped, none⟩ false
        (StartOutcome.exit (some 1) none "x") 0).1 false
        (StartOutcome.exit (some 0) none "") 1).1.state = State.started ∧
    (startRun "/h" (startRun "/h" ⟨State.stopped, none⟩ false
        (StartOutcome.exit (some 1) none "x") 0).1 false
        (StartOutcome.exit (some 0) none "") 1).1.client = none :=
  ⟨Reachable.start "/h" false (StartOutcome.exit (some 0) none "") 1
     (Reachable.start "/h" false (StartOutcome.exit (some 1) none "x") 0 Reachable.init),
   by decide, by decide⟩

/-- Claim C2: calling `start()` non-nested while the state is `Started`
*does* fail, but the promise executor continues past the `reject`: the state
is mutated to `Starting` and a `minikube start` subprocess is spawned before
the caller can observe the failure. This evaluates the model at the failing
input, exhibiting the spawn the claim says must not happen. -/
theorem c2_start_spawns_despite_precondition_failure :
    (startRun "/h" ⟨State.started, some 3⟩ false
        (StartOutcome.exit (some 0) none "") 5).2.2 =
      Except.error (OpFailure.startPrecondition State.started) ∧
    Event.spawned "minikube start" ∈
      (startRun "/h" ⟨State.started, some 3⟩ false
        (StartOutcome.exit (some 0) none "") 5).2.1 ∧
    Event.stateChanged State.starting ∈
      (startRun "/h" ⟨State.started, some 3⟩ false
        (StartOutcome.exit (some 0) none "") 5).2.1 :=
  ⟨rfl, by decide, by decide⟩

/-- Claim C6: calling `del()` while the state is not `Stopped` rejects with
`1`, but — the `reject(1)` not being followed by a `return` — the executor
continues and spawns `minikube delete` anyway. This evaluates the model at
the failing input, exhibiting the spawn the claim says must not happen. -/
theorem c6_del_spawns_despite_running :
    (delRun ⟨State.started, some 3⟩ 0 "").2.2 =
      Except.error OpFailure.delPrecondition ∧
    Event.spawned "minikube delete" ∈ (delRun ⟨State.started, some 3⟩ 0 "").2.1 :=
  ⟨rfl, by decide⟩

end Minikube

namespace Minikube

open K8s

theorem startPrecondFail_eq_false (nested : Bool) (s : State)
    (h : nested = true ∨ s = State.stopped) : startPrecondFail nested s = false := by
  rcases h with h | h <;> simp [startPrecondFail, h]

/-- Claim C7: when the start subprocess exits with a non-zero code (no
escalation, no SIGINT) on a start whose precondition held, the state becomes
`Error` and the call rejects with `customizeMinikubeMessage` applied to the
accumulated stderr; the reformatter rewrites a text matched by the downgrade
pattern into the structured suggested-fix message and passes any non-matching
text through unchanged. -/
theorem c7_start_failure_message (home : String) (m : MK) (nested : Bool)
    (code : Option Int) (sig : Option String)
    (stderr s1 s2 g1 g2 g3 g4 : String) (fresh : Nat)
    (hcode : code ≠ some 0) (hsig : sig ≠ some "SIGINT")
    (hpre : nested = true ∨ m.state = State.stopped)
    (hnomatch : downgradeExec s1 = none)
    (hmatch : downgradeExec s2 = some (g1, g2, g3, g4)) :
    (startRun home m nested (StartOutcome.exit code sig stderr) fresh).1.state =
      State.error ∧
    (startRun home m nested (StartOutcome.exit code sig stderr) fresh).2.2 =
      Except.error (OpFailure.startFailure code (customizeMinikubeMessage home stderr)) ∧
    customizeMinikubeMessage home s1 = s1 ∧
    customizeMinikubeMessage home s2 =
      g1 ++ "\n\nSuggested fix:\n\n" ++ g2 ++ "\n\nexport MINIKUBE_HOME=" ++
        quoteIfNecessary home ++ "\n\n" ++ g3 ++ "\n\n" ++ g4 ++
        " --driver=hyperkit\n" := by
  have hp := startPrecondFail_eq_false nested m.state hpre
  refine ⟨?_, ?_, ?_, ?_⟩
  · simp [startRun, hcode, hsig, hp, setState, tearsDown]
  · simp [startRun, hcode, hsig, hp, setState, tearsDown]
  · simp [customizeMinikubeMessage, hnomatch]
  · simp [customizeMinikubeMessage, hmatch]

set_option maxRecDepth 40000 in
/-- Witness for `c7_start_failure_message`: a failing start from `Stopped`
with stderr `"boom"` (no downgrade pattern), and a concrete stderr matching
the downgrade pattern with its four capture groups. -/
theorem c7_start_failure_message_witness :
    ((some 1 : Option Int) ≠ some 0) ∧
    ((none : Option String) ≠ some "SIGINT") ∧
    downgradeExec "boom" = none ∧
    downgradeExec "X Exiting due to K8S_DOWNGRADE_UNSUPPORTED: Unable to safely downgrade a * Suggestion: 1) Recreate the cluster with b by running: minikube delete -p rancher-desktop minikube start -p rancher-desktop --kubernetes-version=c\n" =
      some ("Unable to safely downgrade a", "Recreate the cluster with b by running:",
        "minikube delete -p rancher-desktop",
        "minikube start -p rancher-desktop --kubernetes-version=c") ∧
    ((startRun "/Users/a b" ⟨State.stopped, none⟩ false
        (StartOutcome.exit (some 1) none "boom") 0).1.state = State.error ∧
      (startRun "/Users/a b" ⟨State.stopped, none⟩ false
        (StartOutcome.exit (some 1) none "boom") 0).2.2 =
        Except.error (OpFailure.startFailure (some 1)
          (customizeMinikubeMessage "/Users/a b" "boom")) ∧
      customizeMinikubeMessage "/Users/a b" "boom" = "boom" ∧
      customizeMinikubeMessage "/Users/a b" "X Exiting due to K8S_DOWNGRADE_UNSUPPORTED: Unable to safely downgrade a * Suggestion: 1) Recreate the cluster with b by running: minikube delete -p rancher-desktop minikube start -p rancher-desktop --kubernetes-version=c\n" =
        "Unable to safely downgrade a" ++ "\n\nSuggested fix:\n\n" ++
          "Recreate the cluster with b by running:" ++ "\n\nexport MINIKUBE_HOME=" ++
          quoteIfNecessary "/Users/a b" ++ "\n\n" ++
          "minikube delete -p rancher-desktop" ++ "\n\n" ++
          "minikube start -p rancher-desktop --kubernetes-version=c" ++
          " --driver=hyperkit\n") :=
  ⟨by decide, by decide, by decide, by decide,
   c7_start_failure_message "/Users/a b" ⟨State.stopped, none⟩ false (some 1) none
     "boom" "boom"
     "X Exiting due to K8S_DOWNGRADE_UNSUPPORTED: Unable to safely downgrade a * Suggestion: 1) Recreate the cluster with b by running: minikube delete -p rancher-desktop minikube start -p rancher-desktop --kubernetes-version=c\n"
     "Unable to safely downgrade a" "Recreate the cluster with b by running:"
     "minikube delete -p rancher-desktop"
     "minikube start -p rancher-desktop --kubernetes-version=c" 0
     (by decide) (by decide) (Or.inr rfl) (by decide) (by decide)⟩

/-- Claim C10: a successful non-nested `start()` from `Stopped` sets the
state to `Started` twice — once in the exit handler and once after the inner
promise resolves — so `state-changed(Started)` is emitted exactly twice, and
the client is created only after the second emission. -/
theorem c10_start_success_emits_started_twice (home : String) (m : MK)
    (sig : Option String) (stderr : String) (fresh : Nat)
    (h : m.state = State.stopped) :
    (startRun home m false (StartOutcome.exit (some 0) sig stderr) fresh).2.1 =
      [Event.stateChanged State.starting, Event.spawned "minikube start",
       Event.stateChanged State.started, Event.stateChanged State.started,
       Event.clientCreated fresh] ∧
    List.count (Event.stateChanged State.started)
      (startRun home m false (StartOutcome.exit (some 0) sig stderr) fresh).2.1 = 2 ∧
    (startRun home m false (StartOutcome.exit (some 0) sig stderr) fresh).1 =
      ⟨State.started, some fresh⟩ := by
  have hp : startPrecondFail false m.state = false := by simp [startPrecondFail, h]
  have hev : (startRun home m false (StartOutcome.exit (some 0) sig stderr) fresh).2.1 =
      [Event.stateChanged State.starting, Event.spawned "minikube start",
       Event.stateChanged State.started, Event.stateChanged State.started,
       Event.clientCreated fresh] := by
    simp [startRun, hp, setState, tearsDown]
  refine ⟨hev, ?_, ?_⟩
  · rw [hev]
    simp [List.count_cons]
  · simp [startRun, hp, setState, tearsDown]

/-- Witness for `c10_start_success_emits_started_twice` at the initial
state. -/
theorem c10_start_success_emits_started_twice_witness :
    (⟨State.stopped, none⟩ : MK).state = State.stopped ∧
    ((startRun "/h" ⟨State.stopped, none⟩ false
        (StartOutcome.exit (some 0) none "") 4).2.1 =
      [Event.stateChanged State.starting, Event.spawned "minikube start",
       Event.stateChanged State.started, Event.stateChanged State.started,
       Event.clientCreated 4] ∧
    List.count (Event.stateChanged State.started)
      (startRun "/h" ⟨State.stopped, none⟩ false
        (StartOutcome.exit (some 0) none "") 4).2.1 = 2 ∧
    (startRun "/h" ⟨State.stopped, none⟩ false
        (StartOutcome.exit (some 0) none "") 4).1 = ⟨State.started, some 4⟩) :=
  ⟨rfl, c10_start_success_emits_started_twice "/h" ⟨State.stopped, none⟩ none "" 4 rfl⟩

/-- Claim C3, counterexample: with actual CPUs = 2, desired CPUs = 4, memory
2048 MiB vs 2 GiB (matching) and bootstrapper `k3s` (matching), the result is
not `{cpu: [2,4]}` alone — the matching keys `memory` and `bootstrapper` are
present, each mapped to the empty tuple, rather than omitted. -/
theorem c3_matching_keys_present_counterexample :
    requiresRestartReasons (some ⟨2, 2048, "k3s"⟩) ⟨4, 2, "v"⟩ =
      [("cpu", [JsValue.num 2, JsValue.num 4]), ("memory", []), ("bootstrapper", [])] ∧
    List.lookup "memory" (requiresRestartReasons (some ⟨2, 2048, "k3s"⟩) ⟨4, 2, "v"⟩) =
      some [] ∧
    requiresRestartReasons (some ⟨2, 2048, "k3s"⟩) ⟨4, 2, "v"⟩ ≠
      [("cpu", [JsValue.num 2, JsValue.num 4])] := by
  refine ⟨?_, ?_, ?_⟩ <;> norm_num [requiresRestartReasons, List.lookup] <;> decide

/-- Claim C3, amended: `requiresRestartReasons()` returns an empty mapping
when no running configuration exists; otherwise the result has exactly the
keys `cpu`, `memory`, `bootstrapper` in that order, each mapped to
`[actual, desired]` when the values differ and to the *empty tuple* when they
match (matching keys are present with `[]`, not omitted). -/
theorem c3_restart_reasons (cfg : BackendSettings) (c : MinikubeConfiguration) :
    requiresRestartReasons none cfg = [] ∧
    (requiresRestartReasons (some c) cfg).map Prod.fst =
      ["cpu", "memory", "bootstrapper"] ∧
    List.lookup "cpu" (requiresRestartReasons (some c) cfg) =
      some (if c.CPUs = cfg.numberCPUs then []
            else [JsValue.num c.CPUs, JsValue.num cfg.numberCPUs]) ∧
    List.lookup "memory" (requiresRestartReasons (some c) cfg) =
      some (if c.Memory / 1024 = cfg.memoryInGB then []
            else [JsValue.num (c.Memory / 1024), JsValue.num cfg.memoryInGB]) ∧
    List.lookup "bootstrapper" (requiresRestartReasons (some c) cfg) =
      some (if c.Bootstrapper = "k3s" then []
            else [JsValue.str c.Bootstrapper, JsValue.str "k3s"]) := by
  refine ⟨rfl, rfl, ?_, ?_, ?_⟩ <;>
    simp [requiresRestartReasons, List.lookup]

end Minikube

namespace KubeClient

theorem lookup_append_absent (m : Table) (k : String) (v : Server)
    (h : List.lookup k m = none) :
    List.lookup k (m ++ [(k, v)]) = some v := by
  induction m with
  | nil => simp [List.lookup]
  | cons e rest ih =>
    simp only [List.lookup] at h ⊢
    cases hb : (k == e.1) with
    | true => rw [hb] at h; cases h
    | false =>
      rw [hb] at h
      simpa using ih h

theorem lookup_replace (m : Table) (k : String) (v : Server) :
    List.lookup k (List.map (fun e => if e.1 = k then (k, v) else e) m) =
      if (List.lookup k m).isSome then some v else none := by
  induction m with
  | nil => simp [List.lookup]
  | cons e rest ih =>
    obtain ⟨e1, e2⟩ := e
    by_cases he : e1 = k
    · subst he
      have hhead : (if ((e1, e2) : String × Server).1 = e1 then (e1, v) else (e1, e2)) =
          (e1, v) := by simp
      rw [List.map_cons, hhead]
      simp [List.lookup]
    · have hb : (k == e1) = false := by simp [Ne.symm he]
      have hhead : (if ((e1, e2) : String × Server).1 = k then (k, v) else (e1, e2)) =
          (e1, e2) := by simp [he]
      rw [List.map_cons, hhead]
      simp only [List.lookup, hb]
      exact ih

theorem mapGet_mapSet_self (m : Table) (k : String) (v : Server) :
    mapGet (mapSet m k v) k = some v := by
  simp only [mapGet, mapSet]
  by_cases hs : (List.lookup k m).isSome
  · rw [if_pos hs, lookup_replace, if_pos hs]
  · rw [if_neg hs]
    exact lookup_append_absent m k v (Option.not_isSome_iff_eq_none.mp hs)

theorem fmGet_cfsRegister (kc : KC) (ns ep : String) (port : Int) (fresh : Nat) :
    fmGet (cfsRegister kc ns ep port fresh).servers (some ns) ep (some port) =
      some ⟨fresh, none⟩ := by
  simpa [cfsRegister, fmGet, fmSet] using
    mapGet_mapSet_self kc.servers (fmKey (some ns) ep (some port)) ⟨fresh, none⟩

/-- Claim C4, counterexample: on an empty forwarding table, a
`createForwardingServer` whose listener errors before `listening` rejects —
but the table is *not* left as it was before the call: the registration made
before the bind remains. -/
theorem c4_registration_not_removed_counterexample :
    (createForwardingServer ⟨[], false⟩ "ns" "svc" 80 0 BindOutcome.errored).2.2 =
      Except.error KCErr.listenError ∧
    (createForwardingServer ⟨[], false⟩ "ns" "svc" 80 0 BindOutcome.errored).1.servers ≠
      (⟨[], false⟩ : KC).servers :=
  ⟨rfl, by decide⟩

/-- Claim C4, amended: when the newly created listener reports an error or
closes before reporting `listening`, the call rejects — but the Forwarding
Table entry registered for the triple is *not* removed: the table differs
from its pre-call state by that entry, which remains registered and
unbound. -/
theorem c4_bind_failure_keeps_registration (kc : KC) (ns ep : String) (port : Int)
    (fresh : Nat) (h : fmGet kc.servers (some ns) ep (some port) = none) :
    createForwardingServer kc ns ep port fresh BindOutcome.errored =
      (cfsRegister kc ns ep port fresh, [CEvent.listenerCreated fresh],
        Except.error KCErr.listenError) ∧
    createForwardingServer kc ns ep port fresh BindOutcome.closedEarly =
      (cfsRegister kc ns ep port fresh, [CEvent.listenerCreated fresh],
        Except.error KCErr.serverClosed) ∧
    fmGet (cfsRegister kc ns ep port fresh).servers (some ns) ep (some port) =
      some ⟨fresh, none⟩ := by
  refine ⟨?_, ?_, fmGet_cfsRegister kc ns ep port fresh⟩ <;>
    simp [createForwardingServer, h]

/-- Witness for `c4_bind_failure_keeps_registration` on the empty table. -/
theorem c4_bind_failure_keeps_registration_witness :
    fmGet ((⟨[], false⟩ : KC).servers) (some "ns") "svc" (some 80) = none ∧
    (createForwardingServer ⟨[], false⟩ "ns" "svc" 80 0 BindOutcome.errored =
      (cfsRegister ⟨[], false⟩ "ns" "svc" 80 0, [CEvent.listenerCreated 0],
        Except.error KCErr.listenError) ∧
    createForwardingServer ⟨[], false⟩ "ns" "svc" 80 0 BindOutcome.closedEarly =
      (cfsRegister ⟨[], false⟩ "ns" "svc" 80 0, [CEvent.listenerCreated 0],
        Except.error KCErr.serverClosed) ∧
    fmGet (cfsRegister ⟨[], false⟩ "ns" "svc" 80 0).servers (some "ns") "svc" (some 80) =
      some ⟨0, none⟩) :=
  ⟨rfl, c4_bind_failure_keeps_registration ⟨[], false⟩ "ns" "svc" 80 0 rfl⟩

theorem forwardPort_fresh_listening (kc : KC) (ns ep : String) (port : Int)
    (fresh p : Nat) (h : fmGet kc.servers (some ns) ep (some port) = none) :
    forwardPort kc ns ep port fresh (BindOutcome.listening p) =
      (⟨fmSet (cfsRegister kc ns ep port fresh).servers (some ns) ep (some port)
          ⟨fresh, some p⟩, kc.shutdown⟩,
       [CEvent.listenerCreated fresh, CEvent.serviceChanged], Except.ok (some p)) := by
  have hset : fmGet (fmSet (cfsRegister kc ns ep port fresh).servers
      (some ns) ep (some port) ⟨fresh, some p⟩) (some ns) ep (some port) =
      some ⟨fresh, some p⟩ :=
    mapGet_mapSet_self _ _ _
  have hc : createForwardingServer kc ns ep port fresh (BindOutcome.listening p) =
      (⟨fmSet (cfsRegister kc ns ep port fresh).servers (some ns) ep (some port)
          ⟨fresh, some p⟩, kc.shutdown⟩,
       [CEvent.listenerCreated fresh, CEvent.serviceChanged], Except.ok ()) := by
    simp only [createForwardingServer, h, Option.isSome_none, Bool.false_eq_true,
      if_false]
    rw [hset]
    simp [cfsRegister]
  simp only [forwardPort, hc, hset]

/-- Claim C5: `createForwardingServer` is a no-op on an existing triple, so
`forwardPort` called twice with identical arguments while the first forward
is still active returns the same local port both times, leaves the client
state unchanged, and creates exactly one listener across the two calls. -/
theorem c5_forwardPort_idempotent (kc : KC) (ns ep : String) (port : Int)
    (f1 f2 p : Nat) (bind2 : BindOutcome)
    (h : fmGet kc.servers (some ns) ep (some port) = none) :
    (forwardPort kc ns ep port f1 (BindOutcome.listening p)).2.2 =
      Except.ok (some p) ∧
    (forwardPort (forwardPort kc ns ep port f1 (BindOutcome.listening p)).1
        ns ep port f2 bind2).2.2 = Except.ok (some p) ∧
    (forwardPort (forwardPort kc ns ep port f1 (BindOutcome.listening p)).1
        ns ep port f2 bind2).1 =
      (forwardPort kc ns ep port f1 (BindOutcome.listening p)).1 ∧
    List.countP
      (fun e => match e with | CEvent.listenerCreated _ => true | _ => false)
      ((forwardPort kc ns ep port f1 (BindOutcome.listening p)).2.1 ++
        (forwardPort (forwardPort kc ns ep port f1 (BindOutcome.listening p)).1
          ns ep port f2 bind2).2.1) = 1 := by
  have h1 := forwardPort_fresh_listening kc ns ep port f1 p h
  set K := (forwardPort kc ns ep port f1 (BindOutcome.listening p)).1 with hK
  have hg2 : fmGet K.servers (some ns) ep (some port) = some ⟨f1, some p⟩ := by
    rw [hK, h1]
    exact mapGet_mapSet_self _ _ _
  have hcfs : createForwardingServer K ns ep port f2 bind2 = (K, [], Except.ok ()) := by
    simp [createForwardingServer, hg2]
  have h2 : forwardPort K ns ep port f2 bind2 = (K, [], Except.ok (some p)) := by
    simp only [forwardPort, hcfs, hg2]
  refine ⟨by rw [h1], by rw [h2], by rw [h2], ?_⟩
  rw [h2, h1]
  simp [List.countP_cons]

/-- Witness for `c5_forwardPort_idempotent` on the empty table. -/
theorem c5_forwardPort_idempotent_witness :
    fmGet ((⟨[], false⟩ : KC).servers) (some "ns") "svc" (some 80) = none ∧
    ((forwardPort ⟨[], false⟩ "ns" "svc" 80 0 (BindOutcome.listening 9000)).2.2 =
      Except.ok (some 9000) ∧
    (forwardPort (forwardPort ⟨[], false⟩ "ns" "svc" 80 0 (BindOutcome.listening 9000)).1
        "ns" "svc" 80 1 BindOutcome.errored).2.2 = Except.ok (some 9000) ∧
    (forwardPort (forwardPort ⟨[], false⟩ "ns" "svc" 80 0 (BindOutcome.listening 9000)).1
        "ns" "svc" 80 1 BindOutcome.errored).1 =
      (forwardPort ⟨[], false⟩ "ns" "svc" 80 0 (BindOutcome.listening 9000)).1 ∧
    List.countP
      (fun e => match e with | CEvent.listenerCreated _ => true | _ => false)
      ((forwardPort ⟨[], false⟩ "ns" "svc" 80 0 (BindOutcome.listening 9000)).2.1 ++
        (forwardPort (forwardPort ⟨[], false⟩ "ns" "svc" 80 0
            (BindOutcome.listening 9000)).1 "ns" "svc" 80 1 BindOutcome.errored).2.1) = 1) :=
  ⟨rfl, c5_forwardPort_idempotent ⟨[], false⟩ "ns" "svc" 80 0 1 9000
    BindOutcome.errored rfl⟩

end KubeClient

namespace KubeClient

theorem splitFirst_append (c : Char) (l1 l2 : List Char) (h : c ∉ l1) :
    splitFirst c (l1 ++ c :: l2) = some (l1, l2) := by
  induction l1 with
  | nil => simp [splitFirst]
  | cons d ds ih =>
    have hd : d ≠ c := by
      intro he
      exact h (by simp [he])
    have hm : c ∉ ds := fun hm => h (List.mem_cons_of_mem _ hm)
    simp [splitFirst, hd, ih hm]

theorem canonKey_data (ns ep ps : String) :
    (canonKey ns ep ps).data = ns.data ++ '/' :: (ep.data ++ ':' :: ps.data) := by
  show (((ns.data ++ ['/']) ++ ep.data) ++ [':']) ++ ps.data = _
  simp

theorem data_ne_nil_of_ne_empty (s : String) (h : s ≠ "") : s.data ≠ [] := by
  intro he
  exact h (String.ext he)

theorem keyParse_canonKey (ns ep ps : String)
    (hns : ∀ c ∈ ns.data, c ≠ '/' ∧ c ≠ ':')
    (hep2 : ep ≠ "") (hep : ∀ c ∈ ep.data, c ≠ '/' ∧ c ≠ ':')
    (hps2 : ps ≠ "") (hps : ∀ c ∈ ps.data, c.isDigit) :
    keyParse (canonKey ns ep ps) = some (ns, ep, ps) := by
  have h1 : splitFirst '/' (canonKey ns ep ps).data =
      some (ns.data, ep.data ++ ':' :: ps.data) := by
    rw [canonKey_data]
    exact splitFirst_append _ _ _ (fun hm => (hns _ hm).1 rfl)
  have h2 : splitFirst ':' (ep.data ++ ':' :: ps.data) = some (ep.data, ps.data) :=
    splitFirst_append _ _ _ (fun hm => (hep _ hm).2 rfl)
  have hb : ep.data ≠ [] := data_ne_nil_of_ne_empty ep hep2
  have hd : ps.data ≠ [] := data_ne_nil_of_ne_empty ps hps2
  have hall : ps.data.all Char.isDigit = true := List.all_eq_true.mpr hps
  simp only [keyParse, h1, h2, hb, hd, hall]
  simp
  exact ⟨hb, hd⟩

theorem iterEntries_tableOfComps (L : List (String × String × String × Server))
    (hwf : ∀ x ∈ L, WfComp x) :
    iterEntries (tableOfComps L) =
      L.map (fun x => (canonKey x.1 x.2.1 x.2.2.1, x.1, jsParseInt x.2.1, x.2.2.2)) := by
  induction L with
  | nil => rfl
  | cons x xs ih =>
    obtain ⟨hns1, hns, hep1, hep, hps1, hps⟩ := hwf x (List.mem_cons_self x xs)
    have hk := keyParse_canonKey x.1 x.2.1 x.2.2.1 hns hep1 hep hps1 hps
    simp only [tableOfComps, List.map_cons, iterEntries, List.filterMap_cons, hk,
      Option.map_some]
    have ih2 := ih (fun y hy => hwf y (List.mem_cons_of_mem _ hy))
    simp only [iterEntries, tableOfComps] at ih2
    rw [ih2]
    rfl

theorem count_colon_canonKey (ns ep ps : String)
    (hns : ∀ c ∈ ns.data, c ≠ '/' ∧ c ≠ ':')
    (hep : ∀ c ∈ ep.data, c ≠ '/' ∧ c ≠ ':')
    (hps : ∀ c ∈ ps.data, c.isDigit) :
    List.count ':' (canonKey ns ep ps).data = 1 := by
  have h1 : List.count ':' ns.data = 0 :=
    List.count_eq_zero.mpr (fun hm => (hns _ hm).2 rfl)
  have h2 : List.count ':' ep.data = 0 :=
    List.count_eq_zero.mpr (fun hm => (hep _ hm).2 rfl)
  have h3 : List.count ':' ps.data = 0 := by
    refine List.count_eq_zero.mpr (fun hm => ?_)
    have hdig := hps _ hm
    simp at hdig
  rw [canonKey_data]
  simp [List.count_append, List.count_cons, h1, h2, h3]

theorem fmKey_data_of_ne (k b : String) (n : JsNum) (hk : k ≠ "") :
    (fmKey (some k) b n).data =
      k.data ++ '/' :: (b.data ++ ':' :: (jsNumToString n).data) := by
  simp only [fmKey, if_neg hk]
  show (((k.data ++ ['/']) ++ b.data) ++ [':']) ++ (jsNumToString n).data = _
  simp

theorem count_colon_fmKey_ge_two (k b : String) (n : JsNum) (hk : k ≠ "")
    (hc : List.count ':' k.data = 1) :
    2 ≤ List.count ':' (fmKey (some k) b n).data := by
  rw [fmKey_data_of_ne k b n hk]
  simp [List.count_append, List.count_cons, hc]
  omega

theorem mapDelete_eq_self (m : Table) (k : String) (h : ∀ e ∈ m, e.1 ≠ k) :
    mapDelete m k = m := by
  simp only [mapDelete]
  rw [List.filter_eq_self]
  intro e he
  simp [h e he]

theorem destroy_fold_fixed (t : Table)
    (qs : List (String × String × JsNum × Server)) (acc : List Nat)
    (h : ∀ q ∈ qs, ∀ e ∈ t, e.1 ≠ fmKey (some q.1) q.2.1 q.2.2.1) :
    qs.foldl
      (fun acc q =>
        (⟨fmDelete acc.1.servers (some q.1) q.2.1 q.2.2.1, acc.1.shutdown⟩,
         acc.2 ++ [q.2.2.2.id]))
      ((⟨t, true⟩ : KC), acc) =
      ((⟨t, true⟩ : KC), acc ++ qs.map (fun q => q.2.2.2.id)) := by
  induction qs generalizing acc with
  | nil => simp
  | cons q qs ih =>
    have hq := h q (List.mem_cons_self q qs)
    have hdel : fmDelete t (some q.1) q.2.1 q.2.2.1 = t := by
      simp only [fmDelete]
      exact mapDelete_eq_self _ _ hq
    simp only [List.foldl_cons, hdel]
    rw [ih (acc ++ [q.2.2.2.id]) (fun q2 hq2 => h q2 (List.mem_cons_of_mem _ hq2))]
    simp

/-- Claim C8: over any non-empty forwarding table whose keys are the
canonical `namespace/endpoint:digits` ones `ForwardingMap.set` produces, the
iterator yields for each entry the *full composite key* as the namespace
component, the *namespace* as the endpoint component, and the *endpoint name
parsed as a number* as the port component (the `const [namespace, endpoint,
port] = match` destructuring takes `match[0..2]`); consequently `destroy()`
closes every registered listener but its `delete` calls never match an
existing key (their keys contain a second `:`), so every entry is still
present in the table after `destroy()` returns. -/
theorem c8_iterator_permuted_destroy_keeps_entries
    (L : List (String × String × String × Server))
    (hwf : ∀ x ∈ L, WfComp x) (hne : L ≠ []) :
    iterEntries (tableOfComps L) =
      L.map (fun x => (canonKey x.1 x.2.1 x.2.2.1, x.1, jsParseInt x.2.1, x.2.2.2)) ∧
    (destroy ⟨tableOfComps L, false⟩).1.servers = tableOfComps L ∧
    (destroy ⟨tableOfComps L, false⟩).2 = L.map (fun x => x.2.2.2.id) := by
  have hiter := iterEntries_tableOfComps L hwf
  have hkeys : ∀ q ∈ iterEntries (tableOfComps L), ∀ e ∈ tableOfComps L,
      e.1 ≠ fmKey (some q.1) q.2.1 q.2.2.1 := by
    intro q hq e he
    rw [hiter] at hq
    obtain ⟨x, hx, hxq⟩ := List.mem_map.mp hq
    obtain ⟨y, hy, hye⟩ := List.mem_map.mp he
    obtain ⟨hnsx1, hnsx, hepx1, hepx, hpsx1, hpsx⟩ := hwf x hx
    obtain ⟨hnsy1, hnsy, hepy1, hepy, hpsy1, hpsy⟩ := hwf y hy
    have hcy : List.count ':' (canonKey y.1 y.2.1 y.2.2.1).data = 1 :=
      count_colon_canonKey _ _ _ hnsy hepy hpsy
    have hcx : List.count ':' (canonKey x.1 x.2.1 x.2.2.1).data = 1 :=
      count_colon_canonKey _ _ _ hnsx hepx hpsx
    have hkne : canonKey x.1 x.2.1 x.2.2.1 ≠ "" := by
      intro hk0
      have hnil : (canonKey x.1 x.2.1 x.2.2.1).data = [] := by rw [hk0]
      rw [canonKey_data] at hnil
      simp at hnil
    subst hxq
    subst hye
    show canonKey y.1 y.2.1 y.2.2.1 ≠
      fmKey (some (canonKey x.1 x.2.1 x.2.2.1)) x.1 (jsParseInt x.2.1)
    intro heq
    have hcnt := congrArg (fun s => List.count ':' s.data) heq
    simp only at hcnt
    rw [hcy] at hcnt
    have h2 := count_colon_fmKey_ge_two (canonKey x.1 x.2.1 x.2.2.1) x.1
      (jsParseInt x.2.1) hkne hcx
    rw [← hcnt] at h2
    omega
  have hd : destroy ⟨tableOfComps L, false⟩ =
      ((⟨tableOfComps L, true⟩ : KC),
        [] ++ (iterEntries (tableOfComps L)).map (fun q => q.2.2.2.id)) :=
    destroy_fold_fixed (tableOfComps L) (iterEntries (tableOfComps L)) [] hkeys
  refine ⟨hiter, ?_, ?_⟩
  · rw [hd]
  · rw [hd]
    simp only [List.nil_append, hiter, List.map_map]
    rfl

/-- Witness for `c8_iterator_permuted_destroy_keeps_entries` on a two-entry
table. -/
theorem c8_iterator_permuted_destroy_keeps_entries_witness :
    (∀ x ∈ ([("ns", "svc", "80", (⟨0, some 8080⟩ : Server)),
        ("default", "web", "443", ⟨1, none⟩)] :
        List (String × String × String × Server)), WfComp x) ∧
    (([("ns", "svc", "80", (⟨0, some 8080⟩ : Server)),
        ("default", "web", "443", ⟨1, none⟩)] :
        List (String × String × String × Server)) ≠ []) ∧
    (iterEntries (tableOfComps [("ns", "svc", "80", (⟨0, some 8080⟩ : Server)),
        ("default", "web", "443", ⟨1, none⟩)]) =
      ([("ns", "svc", "80", (⟨0, some 8080⟩ : Server)),
        ("default", "web", "443", ⟨1, none⟩)] :
        List (String × String × String × Server)).map
        (fun x => (canonKey x.1 x.2.1 x.2.2.1, x.1, jsParseInt x.2.1, x.2.2.2)) ∧
    (destroy ⟨tableOfComps [("ns", "svc", "80", (⟨0, some 8080⟩ : Server)),
        ("default", "web", "443", ⟨1, none⟩)], false⟩).1.servers =
      tableOfComps [("ns", "svc", "80", (⟨0, some 8080⟩ : Server)),
        ("default", "web", "443", ⟨1, none⟩)] ∧
    (destroy ⟨tableOfComps [("ns", "svc", "80", (⟨0, some 8080⟩ : Server)),
        ("default", "web", "443", ⟨1, none⟩)], false⟩).2 =
      ([("ns", "svc", "80", (⟨0, some 8080⟩ : Server)),
        ("default", "web", "443", ⟨1, none⟩)] :
        List (String × String × String × Server)).map (fun x => x.2.2.2.id)) :=
  ⟨by decide, by decide,
   c8_iterator_permuted_destroy_keeps_entries
     [("ns", "svc", "80", ⟨0, some 8080⟩), ("default", "web", "443", ⟨1, none⟩)]
     (by decide) (by decide)⟩

end KubeClient

namespace KubeClient

theorem serviceEntryFor_error_is_typeError (servers : Table) (svc : Service)
    (ps : PortSpec) (e : KCErr)
    (h : serviceEntryFor servers svc ps = Except.error e) : e = KCErr.typeError := by
  rcases hg : fmGet servers svc.namespaceOf (jsNameOf svc.nameOf) (some ps.targetPort)
    with _ | s
  · simp [serviceEntryFor, hg] at h
  · rcases ha : s.addr with _ | p
    · simp only [serviceEntryFor, hg, ha] at h
      exact (Except.error.injEq _ _ |>.mp h.symm)
    · simp [serviceEntryFor, hg, ha] at h

theorem serviceEntryFor_unbound (servers : Table) (svc : Service) (ps : PortSpec)
    (srv : Server)
    (hget : fmGet servers svc.namespaceOf (jsNameOf svc.nameOf)
      (some ps.targetPort) = some srv)
    (haddr : srv.addr = none) :
    serviceEntryFor servers svc ps = Except.error KCErr.typeError := by
  simp [serviceEntryFor, hget, haddr]

theorem exMapM_error_source (f : α → Except KCErr β) (l : List α) (e : KCErr)
    (h : exMapM f l = Except.error e) : ∃ x ∈ l, f x = Except.error e := by
  induction l with
  | nil => simp [exMapM] at h
  | cons x xs ih =>
    simp only [exMapM] at h
    rcases hf : f x with e2 | b
    · rw [hf] at h
      refine ⟨x, List.mem_cons_self x xs, ?_⟩
      rw [hf]
      exact congrArg Except.error (Except.error.injEq e2 e |>.mp h)
    · rw [hf] at h
      rcases hr : exMapM f xs with e2 | bs
      · rw [hr] at h
        obtain ⟨y, hy, hfy⟩ := ih (hr.trans (by injection h with h2; rw [h2]))
        exact ⟨y, List.mem_cons_of_mem _ hy, hfy⟩
      · rw [hr] at h
        cases h

theorem exMapM_error_of_mem (f : α → Except KCErr β) (l : List α) (x : α)
    (hx : x ∈ l) (hfx : f x = Except.error KCErr.typeError)
    (hall : ∀ y e, f y = Except.error e → e = KCErr.typeError) :
    exMapM f l = Except.error KCErr.typeError := by
  induction l with
  | nil => cases hx
  | cons z zs ih =>
    simp only [exMapM]
    rcases hz : f z with e | b
    · rw [hall z e hz]
    · rcases List.mem_cons.mp hx with hxz | hx2
      · rw [hxz] at hfx
        rw [hfx] at hz
        cases hz
      · rw [ih hx2]

/-- Claim C9: if `listServices()` runs while some Forwarding Table entry
holds a listener that is registered but not bound (`address()` returns
`null`) and the watch cache contains a service/port matching that entry,
then the `listenPort` computation throws a `TypeError`: the code guards only
against `undefined` (`address !== undefined`) before asserting
`(address as net.AddressInfo).port`. The second conjunct exhibits the
window: `createForwardingServer` registers the listener (unbound) before the
bind completes. -/
theorem c9_listServices_throws_on_unbound_listener
    (svcs : List Service) (servers : Table) (svc : Service) (ps : PortSpec)
    (srv : Server) (kc : KC) (ns ep : String) (port : Int) (fresh : Nat)
    (hsvc : svc ∈ svcs) (hps : ps ∈ svc.ports)
    (hget : fmGet servers svc.namespaceOf (jsNameOf svc.nameOf)
      (some ps.targetPort) = some srv)
    (haddr : srv.addr = none)
    (hreg : fmGet kc.servers (some ns) ep (some port) = none) :
    listServices svcs servers = Except.error KCErr.typeError ∧
    fmGet (cfsRegister kc ns ep port fresh).servers (some ns) ep (some port) =
      some ⟨fresh, none⟩ := by
  refine ⟨?_, fmGet_cfsRegister kc ns ep port fresh⟩
  have hinner : exMapM (serviceEntryFor servers svc) svc.ports =
      Except.error KCErr.typeError :=
    exMapM_error_of_mem _ _ ps hps
      (serviceEntryFor_unbound servers svc ps srv hget haddr)
      (fun y e hy => serviceEntryFor_error_is_typeError servers svc y e hy)
  have houter : exMapM (fun svc => exMapM (serviceEntryFor servers svc) svc.ports)
      svcs = Except.error KCErr.typeError := by
    refine exMapM_error_of_mem _ _ svc hsvc hinner (fun y e hy => ?_)
    obtain ⟨z, hz, hfz⟩ := exMapM_error_source _ _ _ hy
    exact serviceEntryFor_error_is_typeError servers y z e hfz
  simp only [listServices, houter]
  rfl

/-- Witness for `c9_listServices_throws_on_unbound_listener`: one service
with one port, whose forwarding entry holds a registered-but-unbound
listener. -/
theorem c9_listServices_throws_on_unbound_listener_witness :
    ((⟨some "ns", some "svc", [⟨none, 80⟩]⟩ : Service) ∈
      [(⟨some "ns", some "svc", [⟨none, 80⟩]⟩ : Service)]) ∧
    ((⟨none, 80⟩ : PortSpec) ∈ (⟨some "ns", some "svc", [⟨none, 80⟩]⟩ : Service).ports) ∧
    fmGet ([("ns/svc:80", ⟨7, none⟩)] : Table)
      (⟨some "ns", some "svc", [⟨none, 80⟩]⟩ : Service).namespaceOf
      (jsNameOf (⟨some "ns", some "svc", [⟨none, 80⟩]⟩ : Service).nameOf)
      (some (⟨none, 80⟩ : PortSpec).targetPort) = some ⟨7, none⟩ ∧
    (⟨7, none⟩ : Server).addr = none ∧
    fmGet ((⟨[], false⟩ : KC).servers) (some "ns") "svc" (some 80) = none ∧
    (listServices [⟨some "ns", some "svc", [⟨none, 80⟩]⟩]
        [("ns/svc:80", ⟨7, none⟩)] = Except.error KCErr.typeError ∧
      fmGet (cfsRegister ⟨[], false⟩ "ns" "svc" 80 9).servers
        (some "ns") "svc" (some 80) = some ⟨9, none⟩) :=
  ⟨by decide, by decide, by decide, rfl, rfl,
   c9_listServices_throws_on_unbound_listener
     [⟨some "ns", some "svc", [⟨none, 80⟩]⟩] [("ns/svc:80", ⟨7, none⟩)]
     ⟨some "ns", some "svc", [⟨none, 80⟩]⟩ ⟨none, 80⟩ ⟨7, none⟩ ⟨[], false⟩
     "ns" "svc" 80 9 (by decide) (by decide) (by decide) rfl rfl⟩

end KubeClient
